import Mathlib

set_option linter.unusedVariables false
set_option linter.unnecessarySeqFocus false

/-!
Shallow embedding of `src/epub.py` (an EPUB archive validator).

The archive-reading library (`zipfile`), the UTF-8 decoder and the XML
parser (`xml.etree.ElementTree`) are external collaborators of the
program (spec section 1): they are represented here at their interface.
An element tree is the inductive `XML`; the outcome of
`ET.fromstring` on a given document text is a value of
`Except Unit XML` (`.error ()` standing for a `ParseError` on text that
is not well-formed XML); the outcome of reading and UTF-8-decoding an
archive entry is a `DocSource`.  A zip archive is modelled by its entry
list and its raw on-disk bytes, which is exactly the interface
`verify_mimetype` consumes.

Python `ValueError`s are modelled as values of `Err`; the `kind` field
classifies each raise site by the abstract error taxonomy of spec
section 7 (the source raises bare `ValueError`s, distinguished only by
message).  Message texts follow the source messages, with the
interpolated runtime values appended where the source interpolates them.
-/

/-- Abstract error kinds of spec section 7. -/
inductive ErrKind where
  | structural
  | encoding
  | malformedDocument
  | referenceNotFound
  | duplicateKey
  | missingResource
deriving DecidableEq, Repr

/-- A raised error: its spec-section-7 kind and its message. -/
structure Err where
  kind : ErrKind
  msg : String
deriving DecidableEq, Repr

instance {e a : Type} [DecidableEq e] [DecidableEq a] : DecidableEq (Except e a) :=
  fun x y =>
    match x, y with
    | .ok v, .ok w => decidable_of_iff (v = w) ⟨fun h => by rw [h], fun h => by injection h⟩
    | .ok _, .error _ => isFalse (fun h => Except.noConfusion h)
    | .error _, .ok _ => isFalse (fun h => Except.noConfusion h)
    | .error v, .error w =>
      decidable_of_iff (v = w) ⟨fun h => by rw [h], fun h => by injection h⟩

/-- Python `str.endswith`, phrased on character lists so that it
evaluates by reduction. -/
def strEndsWith (s suffix : String) : Bool :=
  suffix.data.isSuffixOf s.data

/-- Kind of the error of a failed computation, `none` on success. -/
def errKind {α : Type} : Except Err α → Option ErrKind
  | .error e => some e.kind
  | .ok _ => none

/-- Python truthiness of an optional string: `None` and `""` are falsy. -/
def truthy : Option String → Bool
  | none => false
  | some s => !s.isEmpty

/-- An element of the `ElementTree` produced by the XML collaborator:
tag (namespace-expanded, ElementTree style), attributes, text, children. -/
inductive XML where
  | elem (tag : String) (attrs : List (String × String)) (text : Option String)
      (children : List XML)

def XML.tag : XML → String
  | .elem t _ _ _ => t

def XML.attrs : XML → List (String × String)
  | .elem _ a _ _ => a

def XML.text : XML → Option String
  | .elem _ _ tx _ => tx

def XML.children : XML → List XML
  | .elem _ _ _ c => c

/-- `Element.get`: attribute lookup, `None` when absent. -/
def XML.get (x : XML) (name : String) : Option String :=
  x.attrs.lookup name

/-- `Element.find`: first direct child with the given (expanded) tag. -/
def XML.find (x : XML) (t : String) : Option XML :=
  x.children.find? (fun c => c.tag == t)

/-- `Element.findall`: all direct children with the given (expanded) tag. -/
def XML.findall (x : XML) (t : String) : List XML :=
  x.children.filter (fun c => c.tag == t)

/-- Expanded-name form of the OPF namespace, as ElementTree renders it. -/
def opfNS : String := "\x7bhttp://www.idpf.org/2007/opf\x7d"

/-- Expanded-name form of the Dublin Core namespace. -/
def dcNS : String := "\x7bhttp://purl.org/dc/elements/1.1/\x7d"

/-- Expanded-name form of the OCF container namespace. -/
def ocfNS : String := "\x7burn:oasis:names:tc:opendocument:xmlns:container\x7d"

/-- One entry of the zip archive, as the `zipfile` collaborator exposes it:
name, compression method, extra header field bytes, flag bits, content bytes. -/
structure ZipEntry where
  name : String
  compress_type : Nat
  extra : List Nat
  flag_bits : Nat
  content : List Nat
deriving DecidableEq, Repr

/-- `zipfile.ZIP_STORED`. -/
def ZIP_STORED : Nat := 0

/-- A zip archive: entries in physical order, plus the raw on-disk bytes of
the underlying file (read by `verify_mimetype` via `open(epub.filename)`). -/
structure EpubZip where
  entries : List ZipEntry
  raw : List Nat
deriving DecidableEq, Repr

/-- `ZipFile.namelist`. -/
def EpubZip.namelist (z : EpubZip) : List String :=
  z.entries.map (fun e => e.name)

/-- `f.seek(start); f.read(len)` on the raw file bytes. -/
def sliceBytes (bs : List Nat) (start len : Nat) : List Nat :=
  (bs.drop start).take len

/-- The bytes of an ASCII string literal. -/
def bytesOfString (s : String) : List Nat :=
  s.data.map (fun c => c.toNat)

/-- `bytes.decode("ascii")` succeeds exactly when every byte is below 128. -/
def asciiOnly (bs : List Nat) : Bool :=
  bs.all (fun b => b < 128)

def msgMimetypeNotFirst : String :=
  "The mimetype file is not the first file in the ZIP archive."

def msgMimetypeCompressed : String :=
  "The mimetype file is compressed. It must be stored uncompressed."

def msgMimetypeExtra : String :=
  "The mimetype file contains extra fields in the ZIP header, which is not allowed."

def msgMimetypeEncrypted : String :=
  "The mimetype file is encrypted, which is not allowed."

def msgMimetypeAscii : String :=
  "The mimetype file is not properly encoded as ASCII."

def msgZipMagic : String :=
  "Invalid ZIP magic number. The file may not be a valid ZIP archive."

def msgMimetypeHeader : String :=
  "The mimetype file is not correctly located or formatted."

def msgMimetypeContent : String :=
  "The mimetype file content is not correctly located or formatted."

/-- `verify_mimetype` of the source.  When the name check on the first
entry passes, `epub.getinfo("mimetype")` returns that first entry, so the
subsequent metadata checks are phrased on it directly. -/
def verify_mimetype (z : EpubZip) : Except Err Unit :=
  match z.entries with
  | [] => .error ⟨.structural, msgMimetypeNotFirst⟩
  | e :: _ =>
    if e.name = "mimetype" then
      if e.compress_type = ZIP_STORED then
        if e.extra = [] then
          if e.flag_bits &&& 1 = 0 then
            if asciiOnly e.content then
              if sliceBytes z.raw 0 2 = bytesOfString "PK" then
                if sliceBytes z.raw 30 8 = bytesOfString "mimetype" then
                  if sliceBytes z.raw 38 20 = bytesOfString "application/epub+zip" then
                    .ok ()
                  else .error ⟨.structural, msgMimetypeContent⟩
                else .error ⟨.structural, msgMimetypeHeader⟩
              else .error ⟨.structural, msgZipMagic⟩
            else .error ⟨.encoding, msgMimetypeAscii⟩
          else .error ⟨.structural, msgMimetypeEncrypted⟩
        else .error ⟨.structural, msgMimetypeExtra⟩
      else .error ⟨.structural, msgMimetypeCompressed⟩
    else .error ⟨.structural, msgMimetypeNotFirst⟩

/-- The six checks of spec section 4.1 on an archive whose first entry is
`e` (check 6 comprising its three byte-region comparisons). -/
def mimetypeChecks (z : EpubZip) (e : ZipEntry) : Prop :=
  e.name = "mimetype" ∧
  e.compress_type = ZIP_STORED ∧
  e.extra = [] ∧
  e.flag_bits &&& 1 = 0 ∧
  asciiOnly e.content = true ∧
  sliceBytes z.raw 0 2 = bytesOfString "PK" ∧
  sliceBytes z.raw 30 8 = bytesOfString "mimetype" ∧
  sliceBytes z.raw 38 20 = bytesOfString "application/epub+zip"

instance (z : EpubZip) (e : ZipEntry) : Decidable (mimetypeChecks z e) := by
  unfold mimetypeChecks
  infer_instance

/-- A compliant concrete archive entry for the identification file. -/
def exGoodEntry : ZipEntry :=
  { name := "mimetype"
    compress_type := ZIP_STORED
    extra := []
    flag_bits := 0
    content := bytesOfString "application/epub+zip" }

/-- A compliant concrete archive: proper local-header byte layout with the
entry name at offset 30 and the media type at offset 38. -/
def exGoodZip : EpubZip :=
  { entries := [exGoodEntry]
    raw := bytesOfString "PK" ++ List.replicate 28 0 ++
      bytesOfString "mimetype" ++ bytesOfString "application/epub+zip" }

/-- Outcome of reading an archive entry and decoding it as UTF-8, then
handing the text to the XML collaborator: the entry may be absent
(`KeyError`), its bytes may fail UTF-8 decoding (`UnicodeDecodeError`),
or it decodes to text on which `ET.fromstring` yields either a
`ParseError` or an element tree. -/
inductive DocSource where
  | missing
  | badEncoding
  | doc (parsed : Except Unit XML)

def pkgMediaType : String := "application/oebps-package+xml"

def msgNoRootfiles : String := "No rootfiles element found in container.xml"

def msgNoRootfile : String :=
  "No EPUB rootfile found in container.xml with media-type application/oebps-package+xml"

/-- The `for rootfile in rootfiles.findall(...)` loop of `parse_container`:
returns the `full-path` of the first child whose `media-type` matches and
whose `full-path` is present and non-empty, else falls through to the
final raise. -/
def containerLoop : List XML → Except Err String
  | [] => .error ⟨.referenceNotFound, msgNoRootfile⟩
  | rf :: rest =>
    if rf.get "media-type" = some pkgMediaType then
      match rf.get "full-path" with
      | some fp => if fp.isEmpty then containerLoop rest else .ok fp
      | none => containerLoop rest
    else containerLoop rest

/-- `parse_container` of the source, on the outcome of reading
`META-INF/container.xml`. -/
def parse_container (src : DocSource) : Except Err String :=
  match src with
  | .missing => .error ⟨.missingResource, "Missing META-INF/container.xml in EPUB file"⟩
  | .badEncoding => .error ⟨.encoding, "Failed to decode META-INF/container.xml as UTF-8"⟩
  | .doc (.error _) => .error ⟨.malformedDocument, "Failed to parse container.xml"⟩
  | .doc (.ok root) =>
    match root.find (ocfNS ++ "rootfiles") with
    | none => .error ⟨.referenceNotFound, msgNoRootfiles⟩
    | some rootfiles => containerLoop (rootfiles.findall (ocfNS ++ "rootfile"))

/-- `parse_package_identity` of the source, on the outcome of
`ET.fromstring` applied to the package document text. -/
def parse_package_identity (opf : Except Unit XML) : Except Err (String × String) :=
  match opf with
  | .error _ => .error ⟨.malformedDocument, "Failed to parse OPF file"⟩
  | .ok root =>
    if root.tag = opfNS ++ "package" then
      if truthy (root.get "version") then
        if truthy (root.get "unique-identifier") then
          .ok ((root.get "version").getD "", (root.get "unique-identifier").getD "")
        else .error ⟨.structural, "Missing unique-identifier attribute in package element"⟩
      else .error ⟨.structural, "Missing version attribute in package element"⟩
    else .error ⟨.structural, "Root element is not package"⟩

/-- A `dc:identifier` record of `parse_metadata`. -/
structure IdentifierRec where
  id : Option String
  scheme : Option String
  value : Option String
deriving DecidableEq, Repr

/-- A `dc:creator` record of `parse_metadata`. -/
structure CreatorRec where
  name : Option String
  role : Option String
  file_as : Option String
deriving DecidableEq, Repr

/-- A `dc:date` record of `parse_metadata`. -/
structure DateRec where
  date : Option String
  event : Option String
deriving DecidableEq, Repr

/-- A `meta` record of `parse_metadata`. -/
structure MetaRec where
  name : Option String
  content : Option String
  scheme : Option String
  property : Option String
  value : Option String
deriving DecidableEq, Repr

/-- The `metadata_info` dictionary of `parse_metadata`. -/
structure MetadataInfo where
  title : List (Option String)
  identifier : List IdentifierRec
  language : List (Option String)
  creator : List CreatorRec
  publisher : List (Option String)
  date : List DateRec
  subject : List (Option String)
  description : List (Option String)
  rights : List (Option String)
  meta : List MetaRec
deriving DecidableEq, Repr

/-- What `parse_metadata` returns when it does not raise: either the
`metadata_info` dictionary or one of its two descriptive error strings
(the source returns a plain string in those two cases). -/
inductive MetaReturn where
  | info (i : MetadataInfo)
  | msg (s : String)
deriving DecidableEq, Repr

def msgMetadataParseFailed : String := "Error: Failed to parse OPF metadata section"

def msgMetadataMissing : String := "Error: Missing metadata section in OPF file"

def msgUniqueIdMismatch (uid : String) : String :=
  "Error: unique-identifier " ++ uid ++ " does not match any dc:identifier id"

/-- The `metadata_info` dictionary built from the located `metadata`
element, field for field as in the source (note the `meta` entry keeps
every child whose tag merely ends with `meta`, as the source does). -/
def metadataInfoOf (metadata : XML) : MetadataInfo where
  title := (metadata.findall (dcNS ++ "title")).map (fun e => e.text)
  identifier := (metadata.findall (dcNS ++ "identifier")).map
    (fun e => ⟨e.get "id", e.get (opfNS ++ "scheme"), e.text⟩)
  language := (metadata.findall (dcNS ++ "language")).map (fun e => e.text)
  creator := (metadata.findall (dcNS ++ "creator")).map
    (fun e => ⟨e.text, e.get (opfNS ++ "role"), e.get (opfNS ++ "file-as")⟩)
  publisher := (metadata.findall (dcNS ++ "publisher")).map (fun e => e.text)
  date := (metadata.findall (dcNS ++ "date")).map
    (fun e => ⟨e.text, e.get (opfNS ++ "event")⟩)
  subject := (metadata.findall (dcNS ++ "subject")).map (fun e => e.text)
  description := (metadata.findall (dcNS ++ "description")).map (fun e => e.text)
  rights := (metadata.findall (dcNS ++ "rights")).map (fun e => e.text)
  meta := (metadata.children.filter (fun e => strEndsWith e.tag "meta")).map
    (fun e => ⟨e.get "name", e.get "content", e.get "scheme", e.get "property", e.text⟩)

/-- The identifier-id set of `parse_metadata`: ids of the identifier
records that are present and non-empty (Python truthiness). -/
def identifierIdsOf (mi : MetadataInfo) : List String :=
  (mi.identifier.filterMap (fun r => r.id)).filter (fun s => !s.isEmpty)

/-- `parse_metadata` of the source.  A `ParseError` from `ET.fromstring`
is caught and turned into a returned string, not a raise. -/
def parse_metadata (opf : Except Unit XML) (unique_identifier : String) :
    Except Err MetaReturn :=
  match opf with
  | .error _ => .ok (.msg msgMetadataParseFailed)
  | .ok root =>
    match root.find (opfNS ++ "metadata") with
    | none => .ok (.msg msgMetadataMissing)
    | some metadata =>
      if (identifierIdsOf (metadataInfoOf metadata)).contains unique_identifier then
        .ok (.info (metadataInfoOf metadata))
      else
        .error ⟨.referenceNotFound, msgUniqueIdMismatch unique_identifier⟩

/-- The `item_data` dictionary of `parse_manifest`, one per `item` element. -/
structure ItemData where
  id : Option String
  href : Option String
  media_type : Option String
  fallback : Option String
  fallback_style : Option String
  required_namespace : Option String
  required_modules : Option String
deriving DecidableEq, Repr

/-- The `item_data` dictionary read off one `item` element. -/
def mkItemData (item : XML) : ItemData where
  id := item.get "id"
  href := item.get "href"
  media_type := item.get "media-type"
  fallback := item.get "fallback"
  fallback_style := item.get "fallback-style"
  required_namespace := item.get "required-namespace"
  required_modules := item.get "required-modules"

/-- The module-level `MIME_TYPES` set. -/
def MIME_TYPES : List String :=
  [ "image/gif"
  , "image/jpeg"
  , "image/png"
  , "image/svg+xml"
  , "application/xhtml+xml"
  , "application/x-dtbook+xml"
  , "text/css"
  , "application/xml"
  , "application/x-dtbncx+xml"
  , "application/vnd.ms-opentype" ]

/-- The module-level `SUGGESTED_MIME_TYPES` mapping (a deprecated type may
map to `None`, meaning no replacement is known). -/
def SUGGESTED_MIME_TYPES : List (String × Option String) :=
  [ ("application/x-font-ttf", some "application/vnd.ms-opentype")
  , ("application/vnd.adobe-page-template+xml", none) ]

/-- `suggested_mime_types.get(mt)`: `None` both when the key is absent and
when the stored replacement is `None`. -/
def suggestedFor (suggested : List (String × Option String)) (mt : String) :
    Option String :=
  (suggested.lookup mt).bind (fun x => x)

/-- The advisory warning `parse_manifest` logs for an unrecognized
media-type: deprecation notice naming the replacement when one is known
(Python truthiness on the looked-up value), otherwise an unknown-type
notice. -/
def manifestWarning (suggested : List (String × Option String))
    (mt itemId : String) : String :=
  if truthy (suggestedFor suggested mt) then
    "Deprecated media-type " ++ mt ++ " in item with id " ++ itemId ++
      ". Consider using " ++ (suggestedFor suggested mt).getD "" ++ " instead."
  else
    "Unknown media-type " ++ mt ++ " in item with id " ++ itemId ++ "."

/-- The advisory warnings one `item` element contributes: one when its
media-type is outside the recognized set, none otherwise. -/
def warnOf (known : List String) (suggested : List (String × Option String))
    (item : XML) : List String :=
  if known.contains ((item.get "media-type").getD "") then []
  else [manifestWarning suggested ((item.get "media-type").getD "")
    ((item.get "id").getD "")]

def msgMissingItemId : String := "Missing id attribute in item"

def msgMissingItemHref : String := "Missing href attribute in item"

def msgMissingItemMediaType : String := "Missing media-type attribute in item"

def msgDuplicateHref (href : String) : String :=
  "Duplicate href " ++ href ++ " found in manifest"

/-- The `for item in manifest.findall(...)` loop of `parse_manifest`:
`hrefs` is the set of hrefs already seen; on success returns the item
list in document order paired with the advisory warnings logged. -/
def manifestLoop (known : List String) (suggested : List (String × Option String))
    (hrefs : List String) : List XML → Except Err (List ItemData × List String)
  | [] => .ok ([], [])
  | item :: rest =>
    if truthy (mkItemData item).id then
      if truthy (mkItemData item).href then
        if truthy (mkItemData item).media_type then
          if hrefs.contains (((mkItemData item).href).getD "") then
            .error ⟨.duplicateKey, msgDuplicateHref (((mkItemData item).href).getD "")⟩
          else
            match manifestLoop known suggested
                ((((mkItemData item).href).getD "") :: hrefs) rest with
            | .error e => .error e
            | .ok (items, warns) =>
              .ok (mkItemData item :: items, warnOf known suggested item ++ warns)
        else .error ⟨.structural, msgMissingItemMediaType⟩
      else .error ⟨.structural, msgMissingItemHref⟩
    else .error ⟨.structural, msgMissingItemId⟩

/-- `parse_manifest` of the source, on the outcome of `ET.fromstring`;
the second component of a successful result is the list of advisory
warnings logged (the source emits them via `logging.warning`). -/
def parse_manifest (opf : Except Unit XML) (known : List String)
    (suggested : List (String × Option String)) :
    Except Err (List ItemData × List String) :=
  match opf with
  | .error _ => .error ⟨.malformedDocument, "Failed to parse OPF manifest section"⟩
  | .ok root =>
    match root.find (opfNS ++ "manifest") with
    | none => .error ⟨.structural, "Missing manifest section in OPF file"⟩
    | some manifest => manifestLoop known suggested [] (manifest.findall (opfNS ++ "item"))

/-- An `item_data` entry of `parse_spine`. -/
structure SpineItem where
  idref : String
  linear : String
deriving DecidableEq, Repr

/-- The dictionary `parse_spine` returns. -/
structure Spine where
  toc : String
  primary_content : List SpineItem
  auxiliary_content : List SpineItem
deriving DecidableEq, Repr

/-- Lookup in the `manifest_items` dictionary.  The dictionary is carried
as the association list of its insertions; as in a Python dict
comprehension, a later binding of the same key shadows an earlier one. -/
def dictGet (d : List (String × ItemData)) (k : String) : Option ItemData :=
  (d.reverse.find? (fun p => p.1 == k)).map (fun p => p.2)

/-- Membership in the `manifest_items` dictionary. -/
def dictContains (d : List (String × ItemData)) (k : String) : Bool :=
  (dictGet d k).isSome

/-- The OPS content-document media types accepted by `parse_spine`. -/
def contentTypes : List String :=
  ["application/xhtml+xml", "application/x-dtbook+xml", "text/x-oeb1-document"]

/-- Whether a manifest item media-type attribute passes the spine
content-document test (`media_type` truthy and in the accepted set; for
the fallback item the source tests plain set membership, which agrees
with this since `None` and the empty string are never in the set). -/
def eligibleContent (mt : Option String) : Bool :=
  match mt with
  | none => false
  | some s => contentTypes.contains s

def msgMissingIdref : String := "itemref missing idref attribute"

def msgDuplicateIdref (idref : String) : String :=
  "Duplicate idref " ++ idref ++ " found in spine"

def msgIdrefNotInManifest (idref : String) : String :=
  "idref " ++ idref ++ " in itemref does not reference any Manifest item"

def msgNotContentDoc (idref : String) : String :=
  "Itemref idref " ++ idref ++
    " does not reference a valid OPS Content Document, even with fallback"

/-- The `for itemref in spine.findall(...)` loop of `parse_spine`:
`seen` is the set of idrefs already seen; returns the primary and
auxiliary sequences contributed by `refs`, in document order. -/
def spineLoop (items : List (String × ItemData)) (seen : List String) :
    List XML → Except Err (List SpineItem × List SpineItem)
  | [] => .ok ([], [])
  | ref :: rest =>
    if truthy (ref.get "idref") then
      if seen.contains ((ref.get "idref").getD "") then
        .error ⟨.duplicateKey, msgDuplicateIdref ((ref.get "idref").getD "")⟩
      else
        match dictGet items ((ref.get "idref").getD "") with
        | none => .error ⟨.referenceNotFound, msgIdrefNotInManifest ((ref.get "idref").getD "")⟩
        | some manifest_item =>
          if eligibleContent manifest_item.media_type ||
              (truthy manifest_item.fallback &&
                match dictGet items (manifest_item.fallback.getD "") with
                | none => false
                | some fi => eligibleContent fi.media_type) then
            match spineLoop items (((ref.get "idref").getD "") :: seen) rest with
            | .error e => .error e
            | .ok (prim, aux) =>
              if ((ref.get "linear").getD "yes") = "yes" then
                .ok (⟨(ref.get "idref").getD "", (ref.get "linear").getD "yes"⟩ :: prim, aux)
              else
                .ok (prim, ⟨(ref.get "idref").getD "", (ref.get "linear").getD "yes"⟩ :: aux)
          else .error ⟨.referenceNotFound, msgNotContentDoc ((ref.get "idref").getD "")⟩
    else .error ⟨.structural, msgMissingIdref⟩

/-- `parse_spine` of the source, on the outcome of `ET.fromstring` and the
`manifest_items` dictionary built by the orchestrator. -/
def parse_spine (opf : Except Unit XML) (manifest_items : List (String × ItemData)) :
    Except Err Spine :=
  match opf with
  | .error _ => .error ⟨.malformedDocument, "Failed to parse OPF spine section"⟩
  | .ok root =>
    match root.find (opfNS ++ "spine") with
    | none => .error ⟨.structural, "Missing spine section in OPF file"⟩
    | some spine =>
      if truthy (spine.get "toc") then
        match spineLoop manifest_items [] (spine.findall (opfNS ++ "itemref")) with
        | .error e => .error e
        | .ok (prim, aux) => .ok ⟨(spine.get "toc").getD "", prim, aux⟩
      else .error ⟨.structural, "The spine element is missing the toc attribute"⟩

/-- A `reference` record of `parse_guide`. -/
structure GuideRef where
  ref_type : String
  href : String
  title : Option String
deriving DecidableEq, Repr

/-- The `for ref in guide.findall(...)` loop of `parse_guide`. -/
def guideLoop : List XML → Except Err (List GuideRef)
  | [] => .ok []
  | ref :: rest =>
    if truthy (ref.get "type") && truthy (ref.get "href") then
      match guideLoop rest with
      | .error e => .error e
      | .ok refs =>
        .ok (⟨(ref.get "type").getD "", (ref.get "href").getD "", ref.get "title"⟩ :: refs)
    else .error ⟨.structural, "Each reference must have type and href attributes"⟩

/-- `parse_guide` of the source: an absent guide section yields the empty
list, not a failure. -/
def parse_guide (opf : Except Unit XML) : Except Err (List GuideRef) :=
  match opf with
  | .error _ => .error ⟨.malformedDocument, "Failed to parse OPF guide section"⟩
  | .ok root =>
    match root.find (opfNS ++ "guide") with
    | none => .ok []
    | some guide => guideLoop (guide.findall (opfNS ++ "reference"))

/-- Modelled from the spec: the `PackageDocument` aggregate of spec
section 3 (identity, metadata, manifest, spine, guide).  The source never
constructs such an aggregate — `parse_package` drops the parsed
components and falls off the end of the function — so this type exists
only to state what spec section 4.8 says `parse_package` returns. -/
structure PackageDocument where
  version : String
  unique_identifier : String
  metadata : MetaReturn
  manifest : List ItemData
  spine : Spine
  guide : List GuideRef
deriving DecidableEq, Repr

/-- The `manifest_items` dictionary comprehension of `parse_package`. -/
def buildLookup (manifest : List ItemData) : List (String × ItemData) :=
  manifest.map (fun item => (item.id.getD "", item))

/-- `parse_package` of the source, on the outcome of reading the package
document at the path the container stage returned.  The Python function
has no `return` statement: on success it returns `None`, typed here as
`Option PackageDocument` so that the spec claim about its result can be
stated. -/
def parse_package (src : DocSource) : Except Err (Option PackageDocument) :=
  match src with
  | .missing => .error ⟨.missingResource, "Missing package content file"⟩
  | .badEncoding => .error ⟨.encoding, "Failed to decode package content file as UTF-8"⟩
  | .doc opf =>
    match parse_package_identity opf with
    | .error e => .error e
    | .ok (_version, unique_identifier) =>
      match parse_metadata opf unique_identifier with
      | .error e => .error e
      | .ok _metadata =>
        match parse_manifest opf MIME_TYPES SUGGESTED_MIME_TYPES with
        | .error e => .error e
        | .ok (manifest, _warns) =>
          match parse_spine opf (buildLookup manifest) with
          | .error e => .error e
          | .ok _spine =>
            match parse_guide opf with
            | .error e => .error e
            | .ok _guide => .ok none

/-- A rootfile child that `parse_container` actually returns from: its
media-type matches the package media type and its full-path attribute is
present and non-empty. -/
def goodRootfile (rf : XML) : Bool :=
  (rf.get "media-type" == some pkgMediaType) && truthy (rf.get "full-path")

/-- The identifier ids declared by the `dc:identifier` children of a
metadata element (present and non-empty, as the source collects them). -/
def identifier_ids (md : XML) : List String :=
  ((md.findall (dcNS ++ "identifier")).filterMap (fun e => e.get "id")).filter
    (fun s => !s.isEmpty)

/-- The three mandatory attributes of a manifest item are present and
non-empty. -/
def itemAttrsOK (it : XML) : Bool :=
  truthy (it.get "id") && truthy (it.get "href") && truthy (it.get "media-type")

/-- The href attributes of a list of item elements. -/
def hrefsOf (refs : List XML) : List String :=
  refs.map (fun it => (it.get "href").getD "")

/-- The spine entry built from one accepted `itemref` element. -/
def mkSpineItem (ref : XML) : SpineItem :=
  ⟨(ref.get "idref").getD "", (ref.get "linear").getD "yes"⟩

/-- The primary-content classification of a document-order itemref list:
entries whose linear attribute defaults to or equals `yes`. -/
def spinePrimary (refs : List XML) : List SpineItem :=
  (refs.map mkSpineItem).filter (fun si => si.linear == "yes")

/-- The auxiliary-content classification of a document-order itemref
list: entries whose linear attribute is present and not `yes`. -/
def spineAux (refs : List XML) : List SpineItem :=
  (refs.map mkSpineItem).filter (fun si => !(si.linear == "yes"))

/-- One itemref passes every per-entry check of the spine loop: idref
present, not yet seen, resolving into the manifest lookup, with an
eligible media-type directly or through one fallback hop. -/
def refOK (items : List (String × ItemData)) (seen : List String) (ref : XML) : Bool :=
  truthy (ref.get "idref") &&
  !(seen.contains ((ref.get "idref").getD "")) &&
  (match dictGet items ((ref.get "idref").getD "") with
   | none => false
   | some mi => eligibleContent mi.media_type ||
       (truthy mi.fallback &&
         match dictGet items (mi.fallback.getD "") with
         | none => false
         | some fi => eligibleContent fi.media_type))

/-- Every itemref of the list passes the spine loop checks, threading the
seen-idref set in document order. -/
def refsOK (items : List (String × ItemData)) (seen : List String) : List XML → Bool
  | [] => true
  | ref :: rest =>
    refOK items seen ref && refsOK items (((ref.get "idref").getD "") :: seen) rest

/-- An item element with the three mandatory attributes. -/
def mkItemEl (idv hrefv mtv : String) : XML :=
  .elem (opfNS ++ "item") [("id", idv), ("href", hrefv), ("media-type", mtv)] none []

/-- An itemref element with only an idref attribute. -/
def mkItemrefEl (idref : String) : XML :=
  .elem (opfNS ++ "itemref") [("idref", idref)] none []

/-- A package element containing just a spine with the given toc and
itemrefs. -/
def mkSpineRoot (toc : String) (refs : List XML) : XML :=
  .elem (opfNS ++ "package") [] none
    [.elem (opfNS ++ "spine") [("toc", toc)] none refs]

/-- Concrete `dc:identifier` element with id `BookId`. -/
def exIdentifierEl : XML :=
  .elem (dcNS ++ "identifier") [("id", "BookId")] (some "urn:isbn:1234567890") []

/-- Concrete metadata element declaring just that identifier. -/
def exMetadataEl : XML := .elem (opfNS ++ "metadata") [] none [exIdentifierEl]

/-- Concrete single-chapter manifest item element. -/
def exItemEl : XML := mkItemEl "chap1" "chap1.xhtml" "application/xhtml+xml"

/-- Concrete manifest element with that single item. -/
def exManifestEl : XML := .elem (opfNS ++ "manifest") [] none [exItemEl]

/-- Concrete spine element referencing the chapter. -/
def exSpineEl : XML :=
  .elem (opfNS ++ "spine") [("toc", "ncx")] none [mkItemrefEl "chap1"]

/-- A fully valid concrete package document (the end-to-end scenario of
spec section 8). -/
def exOpf : XML :=
  .elem (opfNS ++ "package") [("version", "3.0"), ("unique-identifier", "BookId")]
    none [exMetadataEl, exManifestEl, exSpineEl]

/-- The metadata record the metadata stage extracts from `exOpf`. -/
def exMetaInfo : MetadataInfo :=
  ⟨[], [⟨some "BookId", none, some "urn:isbn:1234567890"⟩], [], [], [], [], [], [], [], []⟩

/-- The item record the manifest stage extracts from `exOpf`. -/
def exItemData : ItemData :=
  ⟨some "chap1", some "chap1.xhtml", some "application/xhtml+xml", none, none, none, none⟩

/-- The spine record the spine stage extracts from `exOpf`. -/
def exSpineVal : Spine := ⟨"ncx", [⟨"chap1", "yes"⟩], []⟩

/-- The populated aggregate that spec section 4.8 promises for `exOpf`. -/
def exPackageDoc : PackageDocument :=
  ⟨"3.0", "BookId", .info exMetaInfo, [exItemData], exSpineVal, []⟩

/-- Like `exOpf` but declaring unique-identifier `BookId2`, which no
`dc:identifier` id matches; its manifest and spine sections are absent, so
any stage after metadata would fail structurally if it ran. -/
def exOpfBadUid : XML :=
  .elem (opfNS ++ "package") [("version", "3.0"), ("unique-identifier", "BookId2")]
    none [exMetadataEl]

/-- A rootfile child with matching media-type but no full-path attribute. -/
def exRf1 : XML := .elem (ocfNS ++ "rootfile") [("media-type", pkgMediaType)] none []

/-- A rootfile child with matching media-type and a full-path. -/
def exRf2 : XML :=
  .elem (ocfNS ++ "rootfile")
    [("media-type", pkgMediaType), ("full-path", "OEBPS/content.opf")] none []

/-- A rootfiles element whose first matching child lacks full-path. -/
def exRootfilesEl : XML := .elem (ocfNS ++ "rootfiles") [] none [exRf1, exRf2]

/-- The container document built from `exRootfilesEl`. -/
def exContainer : XML := .elem (ocfNS ++ "container") [] none [exRootfilesEl]

/-- Manifest item with an ineligible media-type whose fallback is `b`. -/
def exItemA : ItemData :=
  ⟨some "a", some "a.png", some "image/png", some "b", none, none, none⟩

/-- Manifest item with an ineligible media-type whose fallback is `c`. -/
def exItemB : ItemData :=
  ⟨some "b", some "b.gif", some "image/gif", some "c", none, none, none⟩

/-- Manifest item with an eligible content media-type. -/
def exItemC : ItemData :=
  ⟨some "c", some "c.xhtml", some "application/xhtml+xml", none, none, none, none⟩

/-- Manifest lookup with a two-hop fallback chain a → b → c where only
`c` is an eligible content document. -/
def exFallbackItems : List (String × ItemData) :=
  [("a", exItemA), ("b", exItemB), ("c", exItemC)]

/-- An eligible manifest item for the linear-classification example. -/
def exC8Item (nm : String) : ItemData :=
  ⟨some nm, some (nm ++ ".xhtml"), some "application/xhtml+xml", none, none, none, none⟩

/-- Lookup for the linear-classification example. -/
def exC8Items : List (String × ItemData) :=
  [("a1", exC8Item "a1"), ("b1", exC8Item "b1"), ("c1", exC8Item "c1"),
   ("d1", exC8Item "d1")]

/-- Itemrefs mixing absent, `no`, and other linear attributes. -/
def exC8Refs : List XML :=
  [ mkItemrefEl "a1"
  , .elem (opfNS ++ "itemref") [("idref", "b1"), ("linear", "no")] none []
  , .elem (opfNS ++ "itemref") [("idref", "c1"), ("linear", "maybe")] none []
  , mkItemrefEl "d1" ]

/-- Spine element for the linear-classification example; its toc id `ncx`
is not a key of `exC8Items`. -/
def exC8SpineEl : XML := .elem (opfNS ++ "spine") [("toc", "ncx")] none exC8Refs

/-- Package document for the linear-classification example. -/
def exC8Doc : XML := .elem (opfNS ++ "package") [] none [exC8SpineEl]

/-- The spine value `parse_spine` produces for the example. -/
def exC8Spine : Spine :=
  ⟨"ncx", [⟨"a1", "yes"⟩, ⟨"d1", "yes"⟩], [⟨"b1", "no"⟩, ⟨"c1", "maybe"⟩]⟩

/-- A package whose manifest repeats an href across two items. -/
def exDupHrefDoc : XML :=
  .elem (opfNS ++ "package") [] none
    [.elem (opfNS ++ "manifest") [] none
      [mkItemEl "i1" "same.xhtml" "text/css", mkItemEl "i2" "same.xhtml" "text/css"]]

/-- A package whose manifest repeats an id across two items with distinct
hrefs. -/
def exDupIdDoc : XML :=
  .elem (opfNS ++ "package") [] none
    [.elem (opfNS ++ "manifest") [] none
      [mkItemEl "dup" "one.xhtml" "text/css", mkItemEl "dup" "two.xhtml" "text/css"]]

/-- Item with a deprecated media-type that has a suggested replacement. -/
def exC9FontItem : XML := mkItemEl "f1" "font.ttf" "application/x-font-ttf"

/-- Item with an unrecognized media-type without a suggested replacement. -/
def exC9UnkItem : XML := mkItemEl "u1" "x.bin" "application/foo"

/-- Manifest mixing deprecated, unknown and recognized media-types. -/
def exC9ManifestEl : XML :=
  .elem (opfNS ++ "manifest") [] none
    [exC9FontItem, exC9UnkItem, mkItemEl "c1" "style.css" "text/css"]

/-- Package document for the advisory-warning example. -/
def exC9Doc : XML := .elem (opfNS ++ "package") [] none [exC9ManifestEl]

/-- C1: the Archive Integrity Verifier succeeds iff all six checks of
spec section 4.1 hold on the archive; the checks run in the stated order
and the first failing check determines the raised error (check 6 split
into its three byte-region comparisons, in their source order). -/
theorem C1_verify_mimetype_checks (z : EpubZip) :
    (z.entries = [] → verify_mimetype z = .error ⟨.structural, msgMimetypeNotFirst⟩) ∧
    ∀ e rest, z.entries = e :: rest →
      ((verify_mimetype z = .ok () ↔ mimetypeChecks z e) ∧
       (e.name ≠ "mimetype" →
          verify_mimetype z = .error ⟨.structural, msgMimetypeNotFirst⟩) ∧
       (e.name = "mimetype" → e.compress_type ≠ ZIP_STORED →
          verify_mimetype z = .error ⟨.structural, msgMimetypeCompressed⟩) ∧
       (e.name = "mimetype" → e.compress_type = ZIP_STORED → e.extra ≠ [] →
          verify_mimetype z = .error ⟨.structural, msgMimetypeExtra⟩) ∧
       (e.name = "mimetype" → e.compress_type = ZIP_STORED → e.extra = [] →
          e.flag_bits &&& 1 ≠ 0 →
          verify_mimetype z = .error ⟨.structural, msgMimetypeEncrypted⟩) ∧
       (e.name = "mimetype" → e.compress_type = ZIP_STORED → e.extra = [] →
          e.flag_bits &&& 1 = 0 → asciiOnly e.content = false →
          verify_mimetype z = .error ⟨.encoding, msgMimetypeAscii⟩) ∧
       (e.name = "mimetype" → e.compress_type = ZIP_STORED → e.extra = [] →
          e.flag_bits &&& 1 = 0 → asciiOnly e.content = true →
          sliceBytes z.raw 0 2 ≠ bytesOfString "PK" →
          verify_mimetype z = .error ⟨.structural, msgZipMagic⟩) ∧
       (e.name = "mimetype" → e.compress_type = ZIP_STORED → e.extra = [] →
          e.flag_bits &&& 1 = 0 → asciiOnly e.content = true →
          sliceBytes z.raw 0 2 = bytesOfString "PK" →
          sliceBytes z.raw 30 8 ≠ bytesOfString "mimetype" →
          verify_mimetype z = .error ⟨.structural, msgMimetypeHeader⟩) ∧
       (e.name = "mimetype" → e.compress_type = ZIP_STORED → e.extra = [] →
          e.flag_bits &&& 1 = 0 → asciiOnly e.content = true →
          sliceBytes z.raw 0 2 = bytesOfString "PK" →
          sliceBytes z.raw 30 8 = bytesOfString "mimetype" →
          sliceBytes z.raw 38 20 ≠ bytesOfString "application/epub+zip" →
          verify_mimetype z = .error ⟨.structural, msgMimetypeContent⟩)) := by
  constructor
  · intro h
    simp [verify_mimetype, h]
  · intro e rest h
    refine ⟨?_, ?_, ?_, ?_, ?_, ?_, ?_, ?_, ?_⟩
    · constructor
      · intro hok
        simp only [verify_mimetype, h] at hok
        split_ifs at hok <;> simp_all [mimetypeChecks, Nat.and_one_is_mod]
      · rintro ⟨c1, c2, c3, c4, c5, c6, c7, c8⟩
        simp only [Nat.and_one_is_mod] at c4
        simp [verify_mimetype, h, c1, c2, c3, c4, c5, c6, c7, c8]
    · intro h1
      simp [verify_mimetype, h, h1]
    · intro h1 h2
      simp [verify_mimetype, h, h1, h2]
    · intro h1 h2 h3
      simp [verify_mimetype, h, h1, h2, h3]
    · intro h1 h2 h3 h4
      simp only [Nat.and_one_is_mod] at h4
      simp [verify_mimetype, h, h1, h2, h3, h4]
    · intro h1 h2 h3 h4 h5
      simp only [Nat.and_one_is_mod] at h4
      simp [verify_mimetype, h, h1, h2, h3, h4, h5]
    · intro h1 h2 h3 h4 h5 h6
      simp only [Nat.and_one_is_mod] at h4
      simp [verify_mimetype, h, h1, h2, h3, h4, h5, h6]
    · intro h1 h2 h3 h4 h5 h6 h7
      simp only [Nat.and_one_is_mod] at h4
      simp [verify_mimetype, h, h1, h2, h3, h4, h5, h6, h7]
    · intro h1 h2 h3 h4 h5 h6 h7 h8
      simp only [Nat.and_one_is_mod] at h4
      simp [verify_mimetype, h, h1, h2, h3, h4, h5, h6, h7, h8]

/-- C1 witness: the compliant concrete archive passes all six checks and
is accepted; an archive differing only in a deflated first entry is
rejected with the compression error. -/
theorem C1_verify_mimetype_checks_witness :
    verify_mimetype exGoodZip = .ok () ∧
    verify_mimetype ⟨[⟨"mimetype", 8, [], 0, []⟩], []⟩ =
      .error ⟨.structural, msgMimetypeCompressed⟩ := by
  constructor
  · exact ((C1_verify_mimetype_checks exGoodZip).2 exGoodEntry [] rfl).1.mpr (by decide)
  · exact (((C1_verify_mimetype_checks ⟨[⟨"mimetype", 8, [], 0, []⟩], []⟩).2
      ⟨"mimetype", 8, [], 0, []⟩ [] rfl).2.2.1) rfl (by decide)

/-- C7 counterexample: on XML that is not well-formed, `parse_metadata`
returns an ordinary value — the descriptive string — and raises no error
of any kind, contradicting the claim that it fails with
`MalformedDocumentError`. -/
theorem C7_counterexample :
    parse_metadata (.error ()) "BookId" = .ok (.msg msgMetadataParseFailed) ∧
    errKind (parse_metadata (.error ()) "BookId") = none := by
  exact ⟨rfl, rfl⟩

/-- C7 amended: for every input text that is not well-formed XML,
`parse_metadata` catches the parse failure and returns the descriptive
string as an ordinary value (no local failure); in the orchestrated
pipeline the malformed package text is rejected before the metadata stage,
by the identity stage, with `MalformedDocumentError`. -/
theorem C7_metadata_malformed_amended (uid : String) :
    parse_metadata (.error ()) uid = .ok (.msg msgMetadataParseFailed) ∧
    parse_package (.doc (.error ())) =
      .error ⟨.malformedDocument, "Failed to parse OPF file"⟩ := by
  exact ⟨rfl, rfl⟩

/-- C2 counterexample: on a fully valid package document every stage
succeeds with the expected component values, yet the orchestrator
returns `none` — the Python function returns `None` — and in particular
not the populated aggregate the claim promises. -/
theorem C2_counterexample :
    parse_package (.doc (.ok exOpf)) = .ok none ∧
    parse_package_identity (.ok exOpf) = .ok ("3.0", "BookId") ∧
    parse_metadata (.ok exOpf) "BookId" = .ok (.info exMetaInfo) ∧
    parse_manifest (.ok exOpf) MIME_TYPES SUGGESTED_MIME_TYPES = .ok ([exItemData], []) ∧
    parse_spine (.ok exOpf) (buildLookup [exItemData]) = .ok exSpineVal ∧
    parse_guide (.ok exOpf) = .ok [] ∧
    parse_package (.doc (.ok exOpf)) ≠ .ok (some exPackageDoc) := by
  refine ⟨rfl, rfl, rfl, rfl, rfl, rfl, ?_⟩
  intro hcontra
  rw [show parse_package (.doc (.ok exOpf)) = .ok none from rfl] at hcontra
  exact Option.noConfusion (Except.ok.inj hcontra)

/-- C2 amended: the Package Orchestrator propagates the first failure of
any stage unchanged (a missing or undecodable package file, then
identity, metadata, manifest, spine, guide, in that order), and on
success returns `None` — it constructs and returns no `PackageDocument`
aggregate, full or partial. -/
theorem C2_parse_package_amended (opf : Except Unit XML) :
    (parse_package .missing =
      .error ⟨.missingResource, "Missing package content file"⟩) ∧
    (parse_package .badEncoding =
      .error ⟨.encoding, "Failed to decode package content file as UTF-8"⟩) ∧
    (∀ e, parse_package_identity opf = .error e →
       parse_package (.doc opf) = .error e) ∧
    (∀ v u e, parse_package_identity opf = .ok (v, u) →
       parse_metadata opf u = .error e →
       parse_package (.doc opf) = .error e) ∧
    (∀ v u m e, parse_package_identity opf = .ok (v, u) →
       parse_metadata opf u = .ok m →
       parse_manifest opf MIME_TYPES SUGGESTED_MIME_TYPES = .error e →
       parse_package (.doc opf) = .error e) ∧
    (∀ v u m mf ws e, parse_package_identity opf = .ok (v, u) →
       parse_metadata opf u = .ok m →
       parse_manifest opf MIME_TYPES SUGGESTED_MIME_TYPES = .ok (mf, ws) →
       parse_spine opf (buildLookup mf) = .error e →
       parse_package (.doc opf) = .error e) ∧
    (∀ v u m mf ws s e, parse_package_identity opf = .ok (v, u) →
       parse_metadata opf u = .ok m →
       parse_manifest opf MIME_TYPES SUGGESTED_MIME_TYPES = .ok (mf, ws) →
       parse_spine opf (buildLookup mf) = .ok s →
       parse_guide opf = .error e →
       parse_package (.doc opf) = .error e) ∧
    (∀ v u m mf ws s g, parse_package_identity opf = .ok (v, u) →
       parse_metadata opf u = .ok m →
       parse_manifest opf MIME_TYPES SUGGESTED_MIME_TYPES = .ok (mf, ws) →
       parse_spine opf (buildLookup mf) = .ok s →
       parse_guide opf = .ok g →
       parse_package (.doc opf) = .ok none) := by
  refine ⟨rfl, rfl, ?_, ?_, ?_, ?_, ?_, ?_⟩
  · intro e h1
    simp [parse_package, h1]
  · intro v u e h1 h2
    simp [parse_package, h1, h2]
  · intro v u m e h1 h2 h3
    simp [parse_package, h1, h2, h3]
  · intro v u m mf ws e h1 h2 h3 h4
    simp [parse_package, h1, h2, h3, h4]
  · intro v u m mf ws s e h1 h2 h3 h4 h5
    simp [parse_package, h1, h2, h3, h4, h5]
  · intro v u m mf ws s g h1 h2 h3 h4 h5
    simp [parse_package, h1, h2, h3, h4, h5]

/-- C2 amended witness: on the valid concrete package every stage
succeeds and the orchestrator returns `None`; on the package whose
unique-identifier resolves nowhere, the metadata-stage failure is
propagated unchanged. -/
theorem C2_parse_package_amended_witness :
    parse_package (.doc (.ok exOpf)) = .ok none ∧
    parse_package (.doc (.ok exOpfBadUid)) =
      .error ⟨.referenceNotFound, msgUniqueIdMismatch "BookId2"⟩ := by
  constructor
  · exact (C2_parse_package_amended (.ok exOpf)).2.2.2.2.2.2.2
      "3.0" "BookId" (.info exMetaInfo) [exItemData] [] exSpineVal []
      rfl rfl rfl rfl rfl
  · exact (C2_parse_package_amended (.ok exOpfBadUid)).2.2.2.1
      "3.0" "BookId2" ⟨.referenceNotFound, msgUniqueIdMismatch "BookId2"⟩ rfl rfl


theorem spineLoop_of_refsOK (items : List (String × ItemData)) :
    ∀ (refs : List XML) (seen : List String), refsOK items seen refs = true →
      spineLoop items seen refs = .ok (spinePrimary refs, spineAux refs) := by
  intro refs
  induction refs with
  | nil =>
    intro seen h
    simp [spineLoop, spinePrimary, spineAux]
  | cons ref rest ih =>
    intro seen h
    simp only [refsOK, Bool.and_eq_true] at h
    obtain ⟨hr, hrest⟩ := h
    simp only [refOK, Bool.and_eq_true] at hr
    obtain ⟨⟨h1, h2⟩, h3⟩ := hr
    rw [Bool.not_eq_true'] at h2
    have h2m : ((ref.get "idref").getD "") ∉ seen := by simpa using h2
    cases hdg : dictGet items ((ref.get "idref").getD "") with
    | none =>
      rw [hdg] at h3
      exact absurd h3 (by simp)
    | some mi =>
      rw [hdg] at h3
      simp at h3
      by_cases hl : ((ref.get "linear").getD "yes") = "yes"
      · simp [spineLoop, h1, h2m, hdg, h3, ih _ hrest, hl, spinePrimary, spineAux,
          mkSpineItem]
      · simp [spineLoop, h1, h2m, hdg, h3, ih _ hrest, hl, spinePrimary, spineAux,
          mkSpineItem]

theorem spineLoop_classify (items : List (String × ItemData)) :
    ∀ (refs : List XML) (seen : List String) (p a : List SpineItem),
      spineLoop items seen refs = .ok (p, a) →
      p = spinePrimary refs ∧ a = spineAux refs := by
  intro refs
  induction refs with
  | nil =>
    intro seen p a h
    simp only [spineLoop, Except.ok.injEq, Prod.mk.injEq] at h
    obtain ⟨hp, ha⟩ := h
    simp [← hp, ← ha, spinePrimary, spineAux]
  | cons ref rest ih =>
    intro seen p a h
    rw [spineLoop] at h
    by_cases h1 : truthy (ref.get "idref") = true
    · rw [if_pos h1] at h
      by_cases h2 : seen.contains ((ref.get "idref").getD "") = true
      · rw [if_pos h2] at h
        exact absurd h (by simp)
      · rw [if_neg h2] at h
        cases hdg : dictGet items ((ref.get "idref").getD "") with
        | none =>
          rw [hdg] at h
          simp at h
        | some mi =>
          rw [hdg] at h
          simp only [] at h
          by_cases h3 : (eligibleContent mi.media_type ||
              (truthy mi.fallback &&
                match dictGet items (mi.fallback.getD "") with
                | none => false
                | some fi => eligibleContent fi.media_type)) = true
          · rw [if_pos h3] at h
            cases hrec : spineLoop items (((ref.get "idref").getD "") :: seen) rest with
            | error e =>
              rw [hrec] at h
              simp at h
            | ok pa =>
              obtain ⟨prim, aux⟩ := pa
              rw [hrec] at h
              simp only [] at h
              obtain ⟨ihp, iha⟩ := ih _ _ _ hrec
              by_cases hl : ((ref.get "linear").getD "yes") = "yes"
              · rw [if_pos hl] at h
                simp only [Except.ok.injEq, Prod.mk.injEq] at h
                obtain ⟨hp, ha⟩ := h
                subst hp ha
                simp [spinePrimary, spineAux, mkSpineItem, hl, ihp, iha]
              · rw [if_neg hl] at h
                simp only [Except.ok.injEq, Prod.mk.injEq] at h
                obtain ⟨hp, ha⟩ := h
                subst hp ha
                simp [spinePrimary, spineAux, mkSpineItem, hl, ihp, iha]
          · rw [if_neg h3] at h
            exact absurd h (by simp)
    · rw [if_neg h1] at h
      exact absurd h (by simp)

/-- C8: in every successfully parsed spine, an itemref with no linear
attribute is classified as primary content with linear `yes`, an itemref
whose linear attribute is anything other than `yes` (such as `no`) is
classified as auxiliary content, and each class keeps the document order
of its itemrefs. -/
theorem C8_spine_linear_classification (root : XML) (items : List (String × ItemData))
    (s : Spine) (spineEl : XML)
    (hfind : root.find (opfNS ++ "spine") = some spineEl)
    (hok : parse_spine (.ok root) items = .ok s) :
    s.primary_content = spinePrimary (spineEl.findall (opfNS ++ "itemref")) ∧
    s.auxiliary_content = spineAux (spineEl.findall (opfNS ++ "itemref")) := by
  simp only [parse_spine, hfind] at hok
  by_cases ht : truthy (spineEl.get "toc") = true
  · rw [if_pos ht] at hok
    cases hrec : spineLoop items [] (spineEl.findall (opfNS ++ "itemref")) with
    | error e =>
      rw [hrec] at hok
      simp at hok
    | ok pa =>
      obtain ⟨prim, aux⟩ := pa
      rw [hrec] at hok
      simp only [Except.ok.injEq] at hok
      obtain ⟨hp, ha⟩ := spineLoop_classify items _ _ _ _ hrec
      rw [← hok]
      exact ⟨hp, ha⟩
  · rw [if_neg ht] at hok
    simp at hok

/-- C8 witness: the concrete spine mixing an absent linear attribute,
`linear=no` and `linear=maybe` is classified as computed. -/
theorem C8_spine_linear_classification_witness :
    exC8Spine.primary_content = spinePrimary (exC8SpineEl.findall (opfNS ++ "itemref")) ∧
    exC8Spine.auxiliary_content = spineAux (exC8SpineEl.findall (opfNS ++ "itemref")) :=
  C8_spine_linear_classification exC8Doc exC8Items exC8Spine exC8SpineEl rfl rfl

/-- C10: when the spine's toc attribute is present and non-empty and
every itemref passes the idref and content-type checks, `parse_spine`
succeeds and returns that toc value, with no condition relating the toc
value to the manifest lookup: the toc cross-reference is never validated
against the manifest. -/
theorem C10_spine_toc_not_validated (root spineEl : XML) (t : String)
    (items : List (String × ItemData))
    (hfind : root.find (opfNS ++ "spine") = some spineEl)
    (htoc : spineEl.get "toc" = some t) (ht : t.isEmpty = false)
    (hrefs : refsOK items [] (spineEl.findall (opfNS ++ "itemref")) = true) :
    parse_spine (.ok root) items =
      .ok ⟨t, spinePrimary (spineEl.findall (opfNS ++ "itemref")),
           spineAux (spineEl.findall (opfNS ++ "itemref"))⟩ := by
  have hloop := spineLoop_of_refsOK items _ _ hrefs
  simp [parse_spine, hfind, htoc, truthy, ht, hloop]

/-- C10 witness: the toc id `ncx` is not a key of the concrete manifest
lookup, yet the spine parses successfully and returns it. -/
theorem C10_spine_toc_not_validated_witness :
    dictContains exC8Items "ncx" = false ∧
    parse_spine (.ok exC8Doc) exC8Items =
      .ok ⟨"ncx", spinePrimary (exC8SpineEl.findall (opfNS ++ "itemref")),
           spineAux (exC8SpineEl.findall (opfNS ++ "itemref"))⟩ := by
  refine ⟨by decide, ?_⟩
  exact C10_spine_toc_not_validated exC8Doc exC8SpineEl "ncx" exC8Items rfl rfl
    (by decide) (by decide)

/-- C3: an itemref whose manifest item has an ineligible media-type is
accepted when that item's fallback resolves to a manifest item with an
eligible media-type, and rejected with `ReferenceNotFoundError` when the
fallback item's media-type is also ineligible — with no condition on the
fallback item's own fallback, so resolution stops after exactly one
hop. -/
theorem C3_spine_fallback_single_hop (items : List (String × ItemData))
    (t r fb : String) (mi fi : ItemData)
    (ht : t.isEmpty = false) (hr : r.isEmpty = false)
    (hmi : dictGet items r = some mi)
    (hmt : eligibleContent mi.media_type = false)
    (hfb : mi.fallback = some fb) (hfbne : fb.isEmpty = false)
    (hfi : dictGet items fb = some fi) :
    (eligibleContent fi.media_type = true →
       parse_spine (.ok (mkSpineRoot t [mkItemrefEl r])) items =
         .ok ⟨t, [⟨r, "yes"⟩], []⟩) ∧
    (eligibleContent fi.media_type = false →
       parse_spine (.ok (mkSpineRoot t [mkItemrefEl r])) items =
         .error ⟨.referenceNotFound, msgNotContentDoc r⟩) := by
  have hfind : (mkSpineRoot t [mkItemrefEl r]).find (opfNS ++ "spine") =
      some (XML.elem (opfNS ++ "spine") [("toc", t)] none [mkItemrefEl r]) := rfl
  have htoc : (XML.elem (opfNS ++ "spine") [("toc", t)] none [mkItemrefEl r]).get "toc" =
      some t := rfl
  have hfa : (XML.elem (opfNS ++ "spine") [("toc", t)] none
      [mkItemrefEl r]).findall (opfNS ++ "itemref") = [mkItemrefEl r] := rfl
  have hidref : (mkItemrefEl r).get "idref" = some r := rfl
  have hlin : (mkItemrefEl r).get "linear" = none := rfl
  constructor
  · intro he
    simp [parse_spine, hfind, htoc, truthy, ht, hfa, spineLoop, hidref, hlin, hr,
      hmi, hmt, hfb, hfbne, hfi, he]
  · intro he
    simp [parse_spine, hfind, htoc, truthy, ht, hfa, spineLoop, hidref, hlin, hr,
      hmi, hmt, hfb, hfbne, hfi, he]

/-- C3 witness: in the lookup with the fallback chain a → b → c, the
itemref on `b` (fallback `c`, eligible) is accepted, while the itemref on
`a` is rejected even though its fallback `b` has its own eligible
fallback `c`. -/
theorem C3_spine_fallback_single_hop_witness :
    parse_spine (.ok (mkSpineRoot "ncx" [mkItemrefEl "b"])) exFallbackItems =
      .ok ⟨"ncx", [⟨"b", "yes"⟩], []⟩ ∧
    parse_spine (.ok (mkSpineRoot "ncx" [mkItemrefEl "a"])) exFallbackItems =
      .error ⟨.referenceNotFound, msgNotContentDoc "a"⟩ ∧
    exItemB.fallback = some "c" ∧ eligibleContent exItemC.media_type = true := by
  refine ⟨?_, ?_, rfl, by decide⟩
  · exact (C3_spine_fallback_single_hop exFallbackItems "ncx" "b" "c" exItemB exItemC
      (by decide) (by decide) rfl (by decide) rfl (by decide) rfl).1 (by decide)
  · exact (C3_spine_fallback_single_hop exFallbackItems "ncx" "a" "b" exItemA exItemB
      (by decide) (by decide) rfl (by decide) rfl (by decide) rfl).2 (by decide)
/-- When every item has its mandatory attributes and no href repeats
(nor collides with the already-seen set), the manifest loop succeeds,
returning the items in document order together with the advisory
warnings of the unrecognized media-types. -/
theorem manifestLoop_ok_char (known : List String) (sugg : List (String × Option String)) :
    ∀ (refs : List XML) (seen : List String),
      (∀ it ∈ refs, itemAttrsOK it = true) →
      (∀ x ∈ hrefsOf refs, x ∉ seen) →
      (hrefsOf refs).Nodup →
      manifestLoop known sugg seen refs =
        .ok (refs.map mkItemData, refs.flatMap (warnOf known sugg)) := by
  intro refs
  induction refs with
  | nil =>
    intro seen _ _ _
    simp [manifestLoop]
  | cons it rest ih =>
    intro seen hattrs hseen hnodup
    have hattr0 : itemAttrsOK it = true := hattrs it (by simp)
    simp only [itemAttrsOK, Bool.and_eq_true] at hattr0
    obtain ⟨⟨hid, hhref⟩, hmt⟩ := hattr0
    have hs0m : ((it.get "href").getD "") ∉ seen :=
      hseen _ (by simp only [hrefsOf, List.map_cons]; exact List.mem_cons_self _ _)
    simp only [hrefsOf, List.map_cons, List.nodup_cons] at hnodup
    obtain ⟨hnotin, hnd⟩ := hnodup
    have hrec := ih (((it.get "href").getD "") :: seen)
      (fun x hx => hattrs x (List.mem_cons_of_mem _ hx))
      (by
        intro x hx hmem
        simp only [hrefsOf] at hx
        rcases List.mem_cons.mp hmem with h0 | hs
        · exact hnotin (h0 ▸ hx)
        · exact hseen x
            (by simp only [hrefsOf, List.map_cons]; exact List.mem_cons_of_mem _ hx) hs)
      (by simpa [hrefsOf] using hnd)
    simp [manifestLoop, mkItemData, hid, hhref, hmt, hs0m, hrec]

/-- When every item has its mandatory attributes but some href repeats
(or collides with the already-seen set), the manifest loop fails with a
duplicate-key error. -/
theorem manifestLoop_dup (known : List String) (sugg : List (String × Option String)) :
    ∀ (refs : List XML) (seen : List String),
      (∀ it ∈ refs, itemAttrsOK it = true) →
      ((∃ x ∈ hrefsOf refs, x ∈ seen) ∨ ¬ (hrefsOf refs).Nodup) →
      ∃ m, manifestLoop known sugg seen refs = .error ⟨.duplicateKey, m⟩ := by
  intro refs
  induction refs with
  | nil =>
    intro seen _ hdup
    rcases hdup with ⟨x, hx, _⟩ | hnd
    · simp [hrefsOf] at hx
    · simp [hrefsOf] at hnd
  | cons it rest ih =>
    intro seen hattrs hdup
    have hattr0 : itemAttrsOK it = true := hattrs it (by simp)
    simp only [itemAttrsOK, Bool.and_eq_true] at hattr0
    obtain ⟨⟨hid, hhref⟩, hmt⟩ := hattr0
    by_cases hs0 : ((it.get "href").getD "") ∈ seen
    · refine ⟨msgDuplicateHref ((it.get "href").getD ""), ?_⟩
      simp [manifestLoop, mkItemData, hid, hhref, hmt, hs0]
    · have hnext : (∃ x ∈ hrefsOf rest, x ∈ (((it.get "href").getD "") :: seen)) ∨
          ¬ (hrefsOf rest).Nodup := by
        rcases hdup with ⟨x, hx, hcx⟩ | hnd
        · simp only [hrefsOf, List.map_cons, List.mem_cons] at hx
          rcases hx with h0 | hxr
          · exact absurd (h0 ▸ hcx) hs0
          · exact Or.inl ⟨x, by simpa [hrefsOf] using hxr, List.mem_cons_of_mem _ hcx⟩
        · by_cases hmem : ((it.get "href").getD "") ∈ hrefsOf rest
          · exact Or.inl ⟨_, hmem, List.mem_cons_self _ _⟩
          · refine Or.inr fun hcontra => hnd ?_
            simp only [hrefsOf, List.map_cons, List.nodup_cons]
            exact ⟨by simpa [hrefsOf] using hmem, by simpa [hrefsOf] using hcontra⟩
      obtain ⟨m, hm⟩ := ih (((it.get "href").getD "") :: seen)
        (fun x hx => hattrs x (List.mem_cons_of_mem _ hx)) hnext
      refine ⟨m, ?_⟩
      simp [manifestLoop, mkItemData, hid, hhref, hmt, hs0, hm]

/-- C5: a manifest whose items all carry their mandatory attributes
fails with `DuplicateKeyError` when two items share an href, and
succeeds — with no check on ids, which may repeat — when the hrefs are
pairwise distinct. -/
theorem C5_manifest_href_uniqueness (root manifestEl : XML) (known : List String)
    (sugg : List (String × Option String))
    (hfind : root.find (opfNS ++ "manifest") = some manifestEl)
    (hattrs : ∀ it ∈ manifestEl.findall (opfNS ++ "item"), itemAttrsOK it = true) :
    (¬ (hrefsOf (manifestEl.findall (opfNS ++ "item"))).Nodup →
       ∃ m, parse_manifest (.ok root) known sugg = .error ⟨.duplicateKey, m⟩) ∧
    ((hrefsOf (manifestEl.findall (opfNS ++ "item"))).Nodup →
       parse_manifest (.ok root) known sugg =
         .ok ((manifestEl.findall (opfNS ++ "item")).map mkItemData,
              (manifestEl.findall (opfNS ++ "item")).flatMap (warnOf known sugg))) := by
  constructor
  · intro hdup
    obtain ⟨m, hm⟩ := manifestLoop_dup known sugg (manifestEl.findall (opfNS ++ "item"))
      [] hattrs (Or.inr hdup)
    refine ⟨m, ?_⟩
    simp [parse_manifest, hfind, hm]
  · intro hnodup
    have hok := manifestLoop_ok_char known sugg (manifestEl.findall (opfNS ++ "item"))
      [] hattrs (by simp) hnodup
    simp [parse_manifest, hfind, hok]

/-- C5 witness: the manifest repeating an href is rejected with a
duplicate-key error, while the manifest repeating an id (with distinct
hrefs) is accepted. -/
theorem C5_manifest_href_uniqueness_witness :
    (∃ m, parse_manifest (.ok exDupHrefDoc) MIME_TYPES SUGGESTED_MIME_TYPES =
       .error ⟨.duplicateKey, m⟩) ∧
    parse_manifest (.ok exDupIdDoc) MIME_TYPES SUGGESTED_MIME_TYPES =
      .ok ([⟨some "dup", some "one.xhtml", some "text/css", none, none, none, none⟩,
            ⟨some "dup", some "two.xhtml", some "text/css", none, none, none, none⟩], []) := by
  constructor
  · exact (C5_manifest_href_uniqueness exDupHrefDoc
      (.elem (opfNS ++ "manifest") [] none
        [mkItemEl "i1" "same.xhtml" "text/css", mkItemEl "i2" "same.xhtml" "text/css"])
      MIME_TYPES SUGGESTED_MIME_TYPES rfl (by decide)).1 (by decide)
  · exact ((C5_manifest_href_uniqueness exDupIdDoc
      (.elem (opfNS ++ "manifest") [] none
        [mkItemEl "dup" "one.xhtml" "text/css", mkItemEl "dup" "two.xhtml" "text/css"])
      MIME_TYPES SUGGESTED_MIME_TYPES rfl (by decide)).2 (by decide)).trans (by rfl)

/-- C9: an item whose media-type is outside the recognized set does not
make `parse_manifest` fail: the manifest still parses, the item appears
in the returned list, and exactly one advisory warning is produced for
it — naming the suggested replacement when the deprecated-type table
yields one, otherwise calling the type unknown. -/
theorem C9_manifest_media_type_advisory (root manifestEl it0 : XML)
    (known : List String) (sugg : List (String × Option String))
    (hfind : root.find (opfNS ++ "manifest") = some manifestEl)
    (hattrs : ∀ it ∈ manifestEl.findall (opfNS ++ "item"), itemAttrsOK it = true)
    (hnodup : (hrefsOf (manifestEl.findall (opfNS ++ "item"))).Nodup)
    (hmem : it0 ∈ manifestEl.findall (opfNS ++ "item"))
    (hunk : known.contains ((it0.get "media-type").getD "") = false) :
    parse_manifest (.ok root) known sugg =
      .ok ((manifestEl.findall (opfNS ++ "item")).map mkItemData,
           (manifestEl.findall (opfNS ++ "item")).flatMap (warnOf known sugg)) ∧
    mkItemData it0 ∈ (manifestEl.findall (opfNS ++ "item")).map mkItemData ∧
    warnOf known sugg it0 =
      [manifestWarning sugg ((it0.get "media-type").getD "") ((it0.get "id").getD "")] ∧
    (∀ repl, suggestedFor sugg ((it0.get "media-type").getD "") = some repl →
       repl.isEmpty = false →
       manifestWarning sugg ((it0.get "media-type").getD "") ((it0.get "id").getD "") =
         "Deprecated media-type " ++ ((it0.get "media-type").getD "") ++
           " in item with id " ++ ((it0.get "id").getD "") ++ ". Consider using " ++
           repl ++ " instead.") ∧
    (suggestedFor sugg ((it0.get "media-type").getD "") = none →
       manifestWarning sugg ((it0.get "media-type").getD "") ((it0.get "id").getD "") =
         "Unknown media-type " ++ ((it0.get "media-type").getD "") ++
           " in item with id " ++ ((it0.get "id").getD "") ++ ".") := by
  refine ⟨?_, List.mem_map_of_mem _ hmem, ?_, ?_, ?_⟩
  · have hok := manifestLoop_ok_char known sugg (manifestEl.findall (opfNS ++ "item"))
      [] hattrs (by simp) hnodup
    simp [parse_manifest, hfind, hok]
  · have hunkm : ((it0.get "media-type").getD "") ∉ known := by simpa using hunk
    simp [warnOf, hunkm]
  · intro repl hrepl hne
    simp [manifestWarning, hrepl, truthy, hne]
  · intro hrepl
    simp [manifestWarning, hrepl, truthy]
/-- C9 witness: the deprecated-type item yields the replacement-naming
warning, the unknown-type item yields the unrecognized warning, and both
items are kept in the parsed manifest. -/
theorem C9_manifest_media_type_advisory_witness :
    parse_manifest (.ok exC9Doc) MIME_TYPES SUGGESTED_MIME_TYPES =
      .ok ((exC9ManifestEl.findall (opfNS ++ "item")).map mkItemData,
           (exC9ManifestEl.findall (opfNS ++ "item")).flatMap
             (warnOf MIME_TYPES SUGGESTED_MIME_TYPES)) ∧
    mkItemData exC9FontItem ∈ (exC9ManifestEl.findall (opfNS ++ "item")).map mkItemData ∧
    warnOf MIME_TYPES SUGGESTED_MIME_TYPES exC9FontItem =
      ["Deprecated media-type application/x-font-ttf in item with id f1. Consider using application/vnd.ms-opentype instead."] ∧
    warnOf MIME_TYPES SUGGESTED_MIME_TYPES exC9UnkItem =
      ["Unknown media-type application/foo in item with id u1."] := by
  have hmem : exC9FontItem ∈ exC9ManifestEl.findall (opfNS ++ "item") := by
    rw [show exC9ManifestEl.findall (opfNS ++ "item") =
      [exC9FontItem, exC9UnkItem, mkItemEl "c1" "style.css" "text/css"] from rfl]
    exact List.mem_cons_self _ _
  obtain ⟨h1, h2, h3, h4, h5⟩ := C9_manifest_media_type_advisory exC9Doc exC9ManifestEl
    exC9FontItem MIME_TYPES SUGGESTED_MIME_TYPES rfl (by decide) (by decide) hmem
    (by decide)
  exact ⟨h1, h2, h3.trans (by decide), by decide⟩

/-- The identifier-id set the source computes from the extracted
metadata record equals the one read directly off the metadata element. -/
theorem identifierIdsOf_metadataInfoOf (md : XML) :
    identifierIdsOf (metadataInfoOf md) = identifier_ids md := by
  simp [identifierIdsOf, metadataInfoOf, identifier_ids, List.filterMap_map,
    Function.comp_def]

/-- C4: given the metadata element, `parse_metadata` fails — and fails
with `ReferenceNotFoundError` — exactly when the unique-identifier key is
not among the declared identifier ids; and in the orchestrated pipeline
that failure is the pipeline result, with no condition on manifest or
spine (they are never reached). -/
theorem C4_metadata_unique_identifier (root md : XML) (uid : String)
    (hfind : root.find (opfNS ++ "metadata") = some md) :
    (errKind (parse_metadata (.ok root) uid) = some .referenceNotFound ↔
       uid ∉ identifier_ids md) ∧
    (∀ v, parse_package_identity (.ok root) = .ok (v, uid) →
       uid ∉ identifier_ids md →
       parse_package (.doc (.ok root)) =
         .error ⟨.referenceNotFound, msgUniqueIdMismatch uid⟩) := by
  have hids : identifierIdsOf (metadataInfoOf md) = identifier_ids md :=
    identifierIdsOf_metadataInfoOf md
  constructor
  · by_cases hmem : uid ∈ identifier_ids md
    · have hmemI : uid ∈ identifierIdsOf (metadataInfoOf md) := by
        rw [hids]
        exact hmem
      simp [parse_metadata, hfind, hmemI, errKind, hmem]
    · have hmemI : uid ∉ identifierIdsOf (metadataInfoOf md) := by
        rw [hids]
        exact hmem
      simp [parse_metadata, hfind, hmemI, errKind, hmem]
  · intro v hid hnot
    have hmemI : uid ∉ identifierIdsOf (metadataInfoOf md) := by
      rw [hids]
      exact hnot
    simp [parse_package, hid, parse_metadata, hfind, hmemI]

/-- C4 witness: the concrete package declaring unique-identifier
`BookId2` against a metadata section whose only identifier id is
`BookId` fails at the metadata stage with `ReferenceNotFoundError`, and
the pipeline reports exactly that failure although the document has no
manifest or spine at all. -/
theorem C4_metadata_unique_identifier_witness :
    errKind (parse_metadata (.ok exOpfBadUid) "BookId2") = some .referenceNotFound ∧
    parse_package (.doc (.ok exOpfBadUid)) =
      .error ⟨.referenceNotFound, msgUniqueIdMismatch "BookId2"⟩ := by
  obtain ⟨hiff, hpipe⟩ :=
    C4_metadata_unique_identifier exOpfBadUid exMetadataEl "BookId2" rfl
  exact ⟨hiff.mpr (by decide), hpipe "3.0" rfl (by decide)⟩

/-- The rootfile loop returns the full-path of the first child that both
matches the package media type and carries a non-empty full-path, and
raises the not-found error when no child does. -/
theorem containerLoop_eq (rfs : List XML) :
    containerLoop rfs = match rfs.find? goodRootfile with
      | some rf => .ok ((rf.get "full-path").getD "")
      | none => .error ⟨.referenceNotFound, msgNoRootfile⟩ := by
  induction rfs with
  | nil => simp [containerLoop]
  | cons rf rest ih =>
    by_cases hmt : rf.get "media-type" = some pkgMediaType
    · cases hfp : rf.get "full-path" with
      | none =>
        have hg : goodRootfile rf = false := by simp [goodRootfile, hfp, truthy]
        simp [containerLoop, hmt, hfp, hg, ih]
      | some fp =>
        by_cases hem : fp.isEmpty
        · have hg : goodRootfile rf = false := by
            simp [goodRootfile, hfp, truthy, hem]
          simp [containerLoop, hmt, hfp, hem, hg, ih]
        · have hg : goodRootfile rf = true := by
            simp [goodRootfile, hmt, hfp, truthy, hem]
          simp [containerLoop, hmt, hfp, hem, hg]
    · have hg : goodRootfile rf = false := by simp [goodRootfile, hmt]
      simp [containerLoop, hmt, hg, ih]

/-- C6 counterexample: the first rootfile child whose media-type equals
the package media type is `exRf1`, which has no full-path attribute, yet
`parse_container` succeeds and returns the full-path of the second
matching child — so it does not return the full-path attribute of the
first matching child, and does not fail either. -/
theorem C6_counterexample :
    parse_container (.doc (.ok exContainer)) = .ok "OEBPS/content.opf" ∧
    (exRootfilesEl.findall (ocfNS ++ "rootfile")).find?
      (fun rf => rf.get "media-type" == some pkgMediaType) = some exRf1 ∧
    exRf1.get "full-path" = none :=
  ⟨rfl, rfl, rfl⟩

/-- C6 amended: `parse_container` returns the full-path of the first
rootfile child whose media-type equals the package media type AND whose
full-path attribute is present and non-empty, and fails with
`ReferenceNotFoundError` when no such child exists. -/
theorem C6_container_rootfile_amended (root rfs : XML)
    (hfind : root.find (ocfNS ++ "rootfiles") = some rfs) :
    (∀ rf fp, (rfs.findall (ocfNS ++ "rootfile")).find? goodRootfile = some rf →
       rf.get "full-path" = some fp →
       parse_container (.doc (.ok root)) = .ok fp) ∧
    ((rfs.findall (ocfNS ++ "rootfile")).find? goodRootfile = none →
       parse_container (.doc (.ok root)) =
         .error ⟨.referenceNotFound, msgNoRootfile⟩) := by
  constructor
  · intro rf fp hfound hfp
    simp [parse_container, hfind, containerLoop_eq, hfound, hfp]
  · intro hnone
    simp [parse_container, hfind, containerLoop_eq, hnone]

/-- C6 amended witness: on the concrete container the first
matching-and-complete rootfile child is the second one, and its
full-path is returned. -/
theorem C6_container_rootfile_amended_witness :
    parse_container (.doc (.ok exContainer)) = .ok "OEBPS/content.opf" :=
  (C6_container_rootfile_amended exContainer exRootfilesEl rfl).1 exRf2
    "OEBPS/content.opf" rfl rfl
